import Mathlib

/-!
Shallow embedding of the Defold CI driver (`ci/ci.py`) and of the waf
resource-archive plugin (`engine/resource/src/waf_resource.py`).

Python strings that may be `None` are modelled as `Option String`; Python
truthiness of such a value (`if x:`, `x or d`, `x and y`) is modelled
explicitly.  Machine effects (process spawns via `call`, prints, file
writes) are modelled as an explicit effect trace.
-/

/-- Python `str.startswith` on character lists (structural, so that the
kernel can evaluate it). -/
def charsPre : List Char → List Char → Bool
  | [], _ => true
  | _ :: _, [] => false
  | p :: ps, c :: cs => p == c && charsPre ps cs

/-- Python `s.startswith(pre)`. -/
def strStartsWith (s pre : String) : Bool := charsPre pre.data s.data

/-- Python truthiness of an optional string: `None` and `""` are falsy. -/
def pyTruthy : Option String → Bool
  | none => false
  | some s => !(s == "")

/-- Python `x or d` for an optional string `x` and a string default `d`:
returns `x` when truthy, else the default. -/
def pyOr (o : Option String) (d : String) : Option String :=
  if pyTruthy o then o else some d

/-- Python string interpolation of a possibly-`None` value (`%`/`format`
print `None` for the `None` object). -/
def pyStr : Option String → String
  | none => "None"
  | some s => s

/-- The parsed command-line arguments of `ci.py main` (the `ArgumentParser`
flags; `store_true` flags are `Bool`, plain options are `Option String`). -/
structure Args where
  platform : Option String
  with_asan : Bool
  with_valgrind : Bool
  with_vanilla_lua : Bool
  archive : Bool
  skip_tests : Bool
  skip_builtins : Bool
  skip_docs : Bool
  engine_artifacts : Option String
  keychain_cert : Option String
  keychain_cert_pass : Option String
  notarization_username : Option String
  notarization_password : Option String
  notarization_itc_provider : Option String
deriving DecidableEq

/-- All-absent / all-false argument record (no flag passed on the
command line). -/
def defaultArgs : Args :=
  ⟨none, false, false, false, false, false, false, false, none, none, none,
   none, none, none⟩

/-- The branch-derived build configuration computed at the top of `main`
(`ci/ci.py` lines 332-369). -/
structure BranchConfig where
  engine_channel : Option String
  editor_channel : Option String
  release_channel : Option String
  make_release : Bool
  engine_artifacts : Option String
  skip_editor_tests : Bool
deriving DecidableEq

/-- The guard of the `DEFEDIT-` row: Python `branch and
branch.startswith("DEFEDIT-")` (short-circuits on `None`/`""`). -/
def defeditMatch : Option String → Bool
  | none => false
  | some b => !(b == "") && strStartsWith b "DEFEDIT-"

/-- The branch-to-configuration resolver of `ci.py main` (lines 332-369):
the `if/elif` chain on the branch name.  `release_channel` is initialised
to `None` and `skip_editor_tests` to `False` before the chain, so rows that
do not assign them keep those values. -/
def resolveConfig (branch : Option String) (args : Args) : BranchConfig :=
  if branch = some "master" then
    { engine_channel := some "stable"
      editor_channel := some "editor-alpha"
      release_channel := some "editor-stable"
      make_release := false
      engine_artifacts := pyOr args.engine_artifacts "archived"
      skip_editor_tests := false }
  else if branch = some "beta" then
    { engine_channel := some "beta"
      editor_channel := some "beta"
      release_channel := some "beta"   -- `release_channel = engine_channel`
      make_release := true
      engine_artifacts := pyOr args.engine_artifacts "archived"
      skip_editor_tests := false }
  else if branch = some "dev" then
    { engine_channel := some "alpha"
      editor_channel := some "alpha"
      release_channel := some "alpha"  -- `release_channel = engine_channel`
      make_release := true
      engine_artifacts := pyOr args.engine_artifacts "archived"
      skip_editor_tests := false }
  else if branch = some "editor-dev" then
    { engine_channel := none
      editor_channel := some "editor-alpha"
      release_channel := some "editor-alpha"  -- `= editor_channel`
      make_release := true
      engine_artifacts := args.engine_artifacts
      skip_editor_tests := false }
  else if defeditMatch branch then
    { engine_channel := none
      editor_channel := none
      release_channel := none
      make_release := false
      engine_artifacts := pyOr args.engine_artifacts "archived-stable"
      skip_editor_tests := false }
  else
    { engine_channel := some "dev"
      editor_channel := none
      release_channel := none
      make_release := false
      engine_artifacts := pyOr args.engine_artifacts "archived"
      skip_editor_tests := true }

/-- A branch whose name starts with `DEFEDIT-` is nonempty (so the Python
truthiness guard of that row passes). -/
theorem defedit_ne_empty (b : String) (h : strStartsWith b "DEFEDIT-" = true) :
    (b == "") = false := by
  by_cases hb : b = ""
  · subst hb; exact absurd h (by decide)
  · exact beq_eq_false_iff_ne.mpr hb

/-- C1: for each of the six branch categories the resolver produces exactly
the configuration tuple of the table (with no caller artifact override, so
the per-branch defaults apply), the first matching branch name winning: the
`DEFEDIT-` row applies to every name with that prefix, and the final row to
every name matching none of the five patterns. -/
theorem claim_C1_branch_table (args : Args) (h : args.engine_artifacts = none) :
    resolveConfig (some "master") args =
      ⟨some "stable", some "editor-alpha", some "editor-stable", false,
       some "archived", false⟩
  ∧ resolveConfig (some "beta") args =
      ⟨some "beta", some "beta", some "beta", true, some "archived", false⟩
  ∧ resolveConfig (some "dev") args =
      ⟨some "alpha", some "alpha", some "alpha", true, some "archived", false⟩
  ∧ resolveConfig (some "editor-dev") args =
      ⟨none, some "editor-alpha", some "editor-alpha", true, none, false⟩
  ∧ (∀ b : String, strStartsWith b "DEFEDIT-" = true →
      resolveConfig (some b) args =
        ⟨none, none, none, false, some "archived-stable", false⟩)
  ∧ (∀ b : String, b ≠ "master" → b ≠ "beta" → b ≠ "dev" → b ≠ "editor-dev" →
      strStartsWith b "DEFEDIT-" = false →
      resolveConfig (some b) args =
        ⟨some "dev", none, none, false, some "archived", true⟩) := by
  refine ⟨?_, ?_, ?_, ?_, ?_, ?_⟩
  · simp [resolveConfig, pyOr, pyTruthy, h]
  · simp [resolveConfig, pyOr, pyTruthy, h]
  · simp [resolveConfig, pyOr, pyTruthy, h]
  · simp [resolveConfig, h]
  · intro b hb
    have h1 : b ≠ "master" := by rintro rfl; exact absurd hb (by decide)
    have h2 : b ≠ "beta" := by rintro rfl; exact absurd hb (by decide)
    have h3 : b ≠ "dev" := by rintro rfl; exact absurd hb (by decide)
    have h4 : b ≠ "editor-dev" := by rintro rfl; exact absurd hb (by decide)
    simp [resolveConfig, defeditMatch, defedit_ne_empty b hb, hb, h1, h2, h3,
      h4, pyOr, pyTruthy, h]
  · intro b h1 h2 h3 h4 h5
    simp [resolveConfig, defeditMatch, h1, h2, h3, h4, h5, pyOr, pyTruthy, h]

/-- Witness for C1 at concrete branch names of the two quantified rows. -/
theorem claim_C1_branch_table_witness :
    defaultArgs.engine_artifacts = none
  ∧ resolveConfig (some "DEFEDIT-42") defaultArgs =
      ⟨none, none, none, false, some "archived-stable", false⟩
  ∧ resolveConfig (some "release/foo") defaultArgs =
      ⟨some "dev", none, none, false, some "archived", true⟩ :=
  ⟨rfl,
   (claim_C1_branch_table defaultArgs rfl).2.2.2.2.1 "DEFEDIT-42" (by decide),
   (claim_C1_branch_table defaultArgs rfl).2.2.2.2.2 "release/foo" (by decide)
     (by decide) (by decide) (by decide) (by decide)⟩

/-- C2 (counterexample): with the override explicitly supplied as the empty
string, the resolved `engine_artifacts` on branch `master` is the branch
default `archived`, not the supplied override — Python's
`args.engine_artifacts or "archived"` discards a falsy override, so the
caller-supplied override does not always win. -/
theorem claim_C2_counterexample :
    ({ defaultArgs with engine_artifacts := some "" } : Args).engine_artifacts
      = some ""
  ∧ (resolveConfig (some "master")
      { defaultArgs with engine_artifacts := some "" }).engine_artifacts
      = some "archived"
  ∧ (resolveConfig (some "master")
      { defaultArgs with engine_artifacts := some "" }).engine_artifacts
      ≠ some "" :=
  ⟨rfl, by decide, by decide⟩

/-- C2 (amended): for every branch name and every explicitly supplied
*non-empty* artifact-source override string, the resolved
`engine_artifacts` equals the override — a non-empty override always wins
over the per-branch default. -/
theorem claim_C2_override_wins (branch : Option String) (args : Args)
    (s : String) (ha : args.engine_artifacts = some s) (hs : s ≠ "") :
    (resolveConfig branch args).engine_artifacts = some s := by
  have hb : (s == "") = false := beq_eq_false_iff_ne.mpr hs
  simp only [resolveConfig, apply_ite BranchConfig.engine_artifacts]
  simp [pyOr, pyTruthy, ha, hb]

/-- Witness for C2 (amended) at branch `master` with override `downloaded`. -/
theorem claim_C2_override_wins_witness :
    ({ defaultArgs with engine_artifacts := some "downloaded" } : Args).engine_artifacts
      = some "downloaded"
  ∧ (resolveConfig (some "master")
      { defaultArgs with engine_artifacts := some "downloaded" }).engine_artifacts
      = some "downloaded" :=
  ⟨rfl, claim_C2_override_wins (some "master") _ "downloaded" rfl (by decide)⟩

/-- C3: every branch name matching none of the five named patterns resolves
with `make_release = false` and `skip_editor_tests = true`. -/
theorem claim_C3_default_row (b : String) (args : Args)
    (h1 : b ≠ "master") (h2 : b ≠ "beta") (h3 : b ≠ "dev")
    (h4 : b ≠ "editor-dev") (h5 : strStartsWith b "DEFEDIT-" = false) :
    (resolveConfig (some b) args).make_release = false
  ∧ (resolveConfig (some b) args).skip_editor_tests = true := by
  simp [resolveConfig, defeditMatch, h1, h2, h3, h4, h5]

/-- Witness for C3 at branch `release/foo`. -/
theorem claim_C3_default_row_witness :
    (resolveConfig (some "release/foo") defaultArgs).make_release = false
  ∧ (resolveConfig (some "release/foo") defaultArgs).skip_editor_tests = true :=
  claim_C3_default_row "release/foo" defaultArgs (by decide) (by decide)
    (by decide) (by decide) (by decide)

/-- C4: an absent (`None`) or empty branch name resolves, without any
possibility of failure (the resolver is a total function and the `else`
row performs no partial operation), to the default row: engine channel
`dev`, no editor channel, no release channel, `make_release = false`,
default artifacts `archived`, `skip_editor_tests = true`. -/
theorem claim_C4_empty_branch (args : Args) (h : args.engine_artifacts = none) :
    resolveConfig none args =
      ⟨some "dev", none, none, false, some "archived", true⟩
  ∧ resolveConfig (some "") args =
      ⟨some "dev", none, none, false, some "archived", true⟩ := by
  constructor <;> simp [resolveConfig, defeditMatch, pyOr, pyTruthy, h]

/-- Witness for C4 with no flags supplied. -/
theorem claim_C4_empty_branch_witness :
    resolveConfig none defaultArgs =
      ⟨some "dev", none, none, false, some "archived", true⟩
  ∧ resolveConfig (some "") defaultArgs =
      ⟨some "dev", none, none, false, some "archived", true⟩ :=
  claim_C4_empty_branch defaultArgs rfl

/-- C9: the resolver is a pure, deterministic mapping of the branch name
and the artifact-source override: it reads no other field of the parsed
arguments, so two argument records agreeing on `engine_artifacts` resolve
identically for every branch (and, being a function, it has no side
effects and returns equal outputs on equal inputs). -/
theorem claim_C9_resolver_pure (branch : Option String) (a1 a2 : Args)
    (h : a1.engine_artifacts = a2.engine_artifacts) :
    resolveConfig branch a1 = resolveConfig branch a2 := by
  unfold resolveConfig; rw [h]

/-- Argument record differing from `defaultArgs` in the platform and every
boolean flag, but not in the artifact-source override. -/
def noisyArgs : Args :=
  ⟨some "x86_64-linux", true, true, true, true, true, true, true, none, none,
   none, none, none, none⟩

/-- Witness for C9: two argument records differing in every boolean flag
and the platform, but agreeing on the override, resolve identically. -/
theorem claim_C9_resolver_pure_witness :
    noisyArgs.engine_artifacts = defaultArgs.engine_artifacts
  ∧ resolveConfig (some "master") noisyArgs
      = resolveConfig (some "master") defaultArgs :=
  ⟨rfl, claim_C9_resolver_pure (some "master") noisyArgs defaultArgs rfl⟩

/-- Externally visible steps taken by the script: `call` spawns a shell
command (printing it and echoing its output as it goes), explicit `print`
statements emit a message, and the keychain setup writes and removes the
certificate file.  A `writeFile` records the base64 source whose decoding
is written. -/
inductive Effect where
  | spawn (cmd : String)
  | message (msg : String)
  | writeFile (path : String) (base64Content : String)
  | removeFile (path : String)
deriving DecidableEq

/-- Ways an invocation stops early: an uncaught `raise Exception(msg)`,
or an explicit `exit(code)`. -/
inductive Abort where
  | exception (msg : String)
  | exitCode (code : Nat)
deriving DecidableEq

/-- `PLATFORMS_DESKTOP` from `ci.py`. -/
def PLATFORMS_DESKTOP : List String :=
  ["x86_64-linux", "x86_64-win32", "x86_64-darwin"]

/-- `platform_from_host`: maps `platform.system()` to a desktop platform. -/
def platform_from_host (system : String) : String :=
  if system = "Linux" then "x86_64-linux"
  else if system = "Darwin" then "x86_64-darwin"
  else "x86_64-win32"

/-- `opts.append('--flag=%s' % x)` guarded by `if x:` — contributes one
option when `x` is truthy, nothing otherwise. -/
def optFlag (flag : String) (o : Option String) : List String :=
  match o with
  | some s => if s = "" then [] else [flag ++ s]
  | none => []

/-- `build_engine` (`ci.py` lines 147-188): assembles the single
`scripts/build.py` command string, with waf options after a double dash.
Parameters appear in the source order of the Python signature
(`skip_codesign` defaults to true there and `main` never overrides it). -/
def build_engine (platform : String)
    (with_valgrind with_asan with_vanilla_lua skip_tests skip_codesign
     skip_docs skip_builtins archive : Bool)
    (channel : Option String) : String :=
  let args0 := ["python", "scripts/build.py", "distclean", "install_ext"]
  let opts0 := ["--platform=" ++ platform]
  let args1 := if platform = "js-web" ∨ platform = "wasm-web"
               then args0 ++ ["install_ems"] else args0
  let args2 := args1 ++ ["build_engine"]
  let opts1 := opts0 ++ optFlag "--channel=" channel
  let args3 := if archive then args2 ++ ["archive_engine"] else args2
  let opts2 := if skip_codesign then opts1 ++ ["--skip-codesign"] else opts1
  let opts3 := if skip_docs then opts2 ++ ["--skip-docs"] else opts2
  let opts4 := if skip_builtins then opts3 ++ ["--skip-builtins"] else opts3
  let opts5 := if skip_tests then opts4 ++ ["--skip-tests"] else opts4
  let waf0 := if skip_tests then ["--skip-build-tests"] else ([] : List String)
  let waf1 := if with_valgrind then waf0 ++ ["--with-valgrind"] else waf0
  let waf2 := if with_asan then waf1 ++ ["--with-asan"] else waf1
  let waf3 := if with_vanilla_lua then waf2 ++ ["--use-vanilla-lua"] else waf2
  let cmd := String.intercalate " " (args3 ++ opts5)
  if waf3 = [] then cmd else cmd ++ " -- " ++ String.intercalate " " waf3

/-- `build_editor2` (`ci.py` lines 191-211): one build spawn for the host
platform, then one bundle spawn per desktop platform (no-op when the host
platform is not a desktop platform, which `platform_from_host` never
produces). -/
def build_editor2 (hostSystem : String) (channel engine_artifacts : Option String)
    (skip_tests : Bool) : List Effect :=
  let host_platform := platform_from_host hostSystem
  if PLATFORMS_DESKTOP.contains host_platform then
    let opts := optFlag "--engine-artifacts=" engine_artifacts
             ++ optFlag "--channel=" channel
             ++ (if skip_tests then ["--skip-tests"] else [])
    let opts_string := String.intercalate " " opts
    Effect.spawn ("python scripts/build.py distclean install_ext build_editor2 --platform="
        ++ host_platform ++ " " ++ opts_string)
      :: PLATFORMS_DESKTOP.map (fun p =>
           Effect.spawn ("python scripts/build.py bundle_editor2 --platform="
             ++ p ++ " " ++ opts_string))
  else []

/-- `download_editor2` (`ci.py` lines 213-224): all desktop platforms when
no platform was given (`platform is None` — identity check, not
truthiness), else just the given one. -/
def download_editor2 (channel platform : Option String) : List Effect :=
  let platforms := match platform with
    | none => PLATFORMS_DESKTOP
    | some p => [p]
  let opts_string := String.intercalate " " (optFlag "--channel=" channel)
  platforms.map (fun p =>
    Effect.spawn ("python scripts/build.py download_editor2 --platform="
      ++ p ++ " " ++ opts_string))

/-- `notarize_editor2` (`ci.py` lines 226-244): missing credentials print a
message and `exit(1)`; otherwise one notarization spawn. -/
def notarize_editor2 (username password itc_provider : Option String) :
    List Effect × Option Abort :=
  if !pyTruthy username || !pyTruthy password then
    ([Effect.message "No notarization username or password"],
     some (Abort.exitCode 1))
  else
    let opts := ["--platform=x86_64-darwin",
                 "--notarization-username=" ++ pyStr username,
                 "--notarization-password=" ++ pyStr password]
             ++ optFlag "--notarization-itc-provider=" itc_provider
    ([Effect.spawn (String.intercalate " "
        (["python", "scripts/build.py", "notarize_editor2"] ++ opts))], none)

/-- `archive_editor2` (`ci.py` lines 247-262). -/
def archive_editor2 (channel engine_artifacts platform : Option String) :
    List Effect :=
  let platforms := match platform with
    | none => PLATFORMS_DESKTOP
    | some p => [p]
  let opts_string := String.intercalate " "
    (optFlag "--engine-artifacts=" engine_artifacts ++ optFlag "--channel=" channel)
  platforms.map (fun p =>
    Effect.spawn ("python scripts/build.py archive_editor2 --platform="
      ++ p ++ " " ++ opts_string))

/-- `build_bob` (`ci.py` lines 265-273). -/
def build_bob (channel : Option String) : List Effect :=
  [Effect.spawn (String.intercalate " "
    (["python", "scripts/build.py", "distclean", "install_ext", "sync_archive",
      "build_bob", "archive_bob"] ++ optFlag "--channel=" channel))]

/-- `release` (`ci.py` lines 276-284). -/
def release (channel : Option String) : List Effect :=
  [Effect.spawn (String.intercalate " "
    (["python", "scripts/build.py", "release"] ++ optFlag "--channel=" channel))]

/-- `build_sdk` (`ci.py` lines 287-295). -/
def build_sdk (channel : Option String) : List Effect :=
  [Effect.spawn (String.intercalate " "
    (["python", "scripts/build.py", "build_sdk"] ++ optFlag "--channel=" channel))]

/-- `smoke_test` (`ci.py` lines 298-299). -/
def smoke_test : List Effect :=
  [Effect.spawn "python scripts/build.py distclean install_ext smoke_test"]

/-- `setup_keychain` (`ci.py` lines 68-105), reached only with a truthy
certificate: prints, `security` spawns, and the certificate file round
trip. -/
def setup_keychain (keychain_cert : String) (keychain_cert_pass : Option String) :
    List Effect :=
  [Effect.message "Setting up keychain",
   Effect.message "Creating keychain",
   Effect.spawn "security create-keychain -p foobar defold.keychain",
   Effect.message "Setting keychain as default",
   Effect.spawn "security default-keychain -s defold.keychain",
   Effect.message "Unlock keychain",
   Effect.spawn "security unlock-keychain -p foobar defold.keychain",
   Effect.message "Decoding certificate",
   Effect.writeFile "ci/cert.p12" keychain_cert,
   Effect.message "Importing certificate",
   Effect.spawn ("security import ci/cert.p12 -k defold.keychain -P "
     ++ pyStr keychain_cert_pass ++ " -A"),
   Effect.removeFile "ci/cert.p12",
   Effect.spawn "security set-key-partition-list -S apple-tool:,apple:,codesign: -s -k foobar defold.keychain",
   Effect.spawn "security set-keychain-settings defold.keychain",
   Effect.spawn "security list-keychains -d user -s defold.keychain",
   Effect.message "Done with keychain setup"]

/-- The Linux package list installed by `install` (`ci.py` lines 122-140). -/
def linuxPackages : List String :=
  ["libssl-dev", "openssl", "libtool", "autoconf", "automake",
   "build-essential", "uuid-dev", "libxi-dev", "libopenal-dev",
   "libgl1-mesa-dev", "libglw1-mesa-dev", "freeglut3-dev", "tofrodos",
   "tree", "valgrind", "lib32z1", "xvfb"]

/-- `install` (`ci.py` lines 108-144): apt setup on Linux, keychain setup on
Darwin when a certificate was passed, nothing elsewhere. -/
def install (hostSystem : String) (args : Args) : List Effect :=
  Effect.message ("Installing dependencies for system \x27" ++ hostSystem ++ "\x27 ")
  :: (if hostSystem = "Linux" then
        [Effect.spawn "sudo add-apt-repository ppa:apt-fast/stable",
         Effect.spawn "sudo apt-get update",
         Effect.spawn "echo debconf apt-fast/maxdownloads string 16 | sudo debconf-set-selections",
         Effect.spawn "echo debconf apt-fast/dlflag boolean true | sudo debconf-set-selections",
         Effect.spawn "echo debconf apt-fast/aptmanager string apt-get | sudo debconf-set-selections",
         Effect.spawn "sudo apt-get install -y apt-fast aria2",
         Effect.spawn "sudo apt-get install -y software-properties-common",
         Effect.spawn ("sudo apt-fast install -y --no-install-recommends "
           ++ String.intercalate " " linuxPackages)]
      else if hostSystem = "Darwin" then
        match args.keychain_cert with
        | some c => if c = "" then [] else setup_keychain c args.keychain_cert_pass
        | none => []
      else [])

/-- The local state of `main` available to the command loop: the host
system, the branch returned by `get_branch`, the parsed arguments, and the
branch-derived configuration. -/
structure Ctx where
  hostSystem : String
  branch : Option String
  args : Args
  cfg : BranchConfig
deriving DecidableEq

/-- Builds the loop state the way `main` does: the configuration comes
from the branch resolver. -/
def mkCtx (hostSystem : String) (branch : Option String) (args : Args) : Ctx :=
  ⟨hostSystem, branch, args, resolveConfig branch args⟩

/-- One iteration of the command loop of `main` (`ci.py` lines 374-413):
the effects of the command and an abort, if the iteration raises or exits.
The `elif` chain is in source order; the final `else` prints the unknown
command and continues. -/
def processCommand (ctx : Ctx) (command : String) : List Effect × Option Abort :=
  if command = "engine" then
    match ctx.args.platform with
    | none => ([], some (Abort.exception "No --platform specified."))
    | some p =>
      if p = "" then ([], some (Abort.exception "No --platform specified."))
      else
        ([Effect.spawn (build_engine p
            (ctx.args.with_valgrind
              || (ctx.branch == some "master" || ctx.branch == some "beta"))
            ctx.args.with_asan ctx.args.with_vanilla_lua ctx.args.skip_tests
            true ctx.args.skip_docs ctx.args.skip_builtins ctx.args.archive
            ctx.cfg.engine_channel)], none)
  else if command = "build-editor" then
    (build_editor2 ctx.hostSystem ctx.cfg.editor_channel
       ctx.cfg.engine_artifacts ctx.cfg.skip_editor_tests, none)
  else if command = "download-editor" then
    (download_editor2 ctx.cfg.editor_channel ctx.args.platform, none)
  else if command = "notarize-editor" then
    notarize_editor2 ctx.args.notarization_username
      ctx.args.notarization_password ctx.args.notarization_itc_provider
  else if command = "archive-editor" then
    (archive_editor2 ctx.cfg.editor_channel ctx.cfg.engine_artifacts
       ctx.args.platform, none)
  else if command = "bob" then
    (build_bob ctx.cfg.engine_channel, none)
  else if command = "sdk" then
    (build_sdk ctx.cfg.engine_channel, none)
  else if command = "smoke" then
    (smoke_test, none)
  else if command = "install" then
    (install ctx.hostSystem ctx.args, none)
  else if command = "release" then
    if ctx.cfg.make_release then (release ctx.cfg.release_channel, none)
    else ([Effect.message ("Branch \x27" ++ pyStr ctx.branch
            ++ "\x27 is not configured for automatic release from CI")], none)
  else
    ([Effect.message ("Unknown command " ++ command)], none)

/-- The command loop itself: commands run in order, their effects
accumulate, and the first abort (raise / exit) stops the loop. -/
def runList (ctx : Ctx) : List String → List Effect × Option Abort
  | [] => ([], none)
  | c :: rest =>
    let r := processCommand ctx c
    match r.2 with
    | some e => (r.1, some e)
    | none =>
      let r2 := runList ctx rest
      (r.1 ++ r2.1, r2.2)

/-- The closed set of command names `main` dispatches on. -/
def knownCommands : List String :=
  ["engine", "build-editor", "download-editor", "notarize-editor",
   "archive-editor", "bob", "sdk", "smoke", "install", "release"]

/-- Python `str.strip()`: whitespace removed from both ends. -/
def pyStrip (s : String) : String :=
  String.mk (((s.data.dropWhile Char.isWhitespace).reverse.dropWhile
    Char.isWhitespace).reverse)

/-- `get_branch` (`ci.py` lines 303-307), parametrised by the outputs of
the two git invocations: it always spawns `git rev-parse --abbrev-ref
HEAD`, and falls back to the (unstripped) commit hash when that printed
`HEAD` (detached-HEAD state).  Returns the spawned effects and the branch
string. -/
def get_branch (gitAbbrevOut gitHashOut : String) : List Effect × String :=
  let branch := pyStrip gitAbbrevOut
  if branch = "HEAD" then
    ([Effect.spawn "git rev-parse --abbrev-ref HEAD",
      Effect.spawn "git rev-parse HEAD"], gitHashOut)
  else
    ([Effect.spawn "git rev-parse --abbrev-ref HEAD"], branch)

/-- The `print("Using branch=...")` line of `main` (line 371). -/
def usingMessage (branch : String) (cfg : BranchConfig) : Effect :=
  Effect.message ("Using branch=" ++ branch
    ++ " engine_channel=" ++ pyStr cfg.engine_channel
    ++ " editor_channel=" ++ pyStr cfg.editor_channel
    ++ " engine_artifacts=" ++ pyStr cfg.engine_artifacts)

/-- `main` (`ci.py` lines 309-413) after argument parsing, parametrised by
the host system and the outputs of the two possible git calls: resolve the
branch (spawning git), resolve the configuration, print the banner, then
run the commands.  Returns the accumulated effect trace and the abort, if
any. -/
def mainRun (hostSystem gitAbbrevOut gitHashOut : String) (args : Args)
    (commands : List String) : List Effect × Option Abort :=
  let gb := get_branch gitAbbrevOut gitHashOut
  let branch := gb.2
  let cfg := resolveConfig (some branch) args
  let r := runList (mkCtx hostSystem (some branch) args) commands
  (gb.1 ++ usingMessage branch cfg :: r.1, r.2)

/-- C5: when the resolved configuration has `make_release = false`, the
`release` command is a no-op: it spawns no process, raises no error and
exits with no failure — its only effect is the printed message. -/
theorem claim_C5_release_noop (host : String) (branch : Option String)
    (args : Args) (h : (resolveConfig branch args).make_release = false) :
    processCommand (mkCtx host branch args) "release" =
      ([Effect.message ("Branch \x27" ++ pyStr branch
        ++ "\x27 is not configured for automatic release from CI")], none) := by
  simp [processCommand, mkCtx, h]

/-- Witness for C5 on branch `master`, whose row has `make_release = false`. -/
theorem claim_C5_release_noop_witness :
    (resolveConfig (some "master") defaultArgs).make_release = false
  ∧ processCommand (mkCtx "Linux" (some "master") defaultArgs) "release" =
      ([Effect.message ("Branch \x27" ++ pyStr (some "master")
        ++ "\x27 is not configured for automatic release from CI")], none) :=
  ⟨by decide, claim_C5_release_noop "Linux" (some "master") defaultArgs (by decide)⟩

/-- C6 (counterexample): an invocation of the `engine` command with no
`--platform` does abort with the missing-argument error, but not before
any external process is spawned: `get_branch` has already spawned
`git rev-parse --abbrev-ref HEAD` before the command loop runs. -/
theorem claim_C6_counterexample :
    (mainRun "Linux" "dev" "" defaultArgs ["engine"]).2
      = some (Abort.exception "No --platform specified.")
  ∧ Effect.spawn "git rev-parse --abbrev-ref HEAD"
      ∈ (mainRun "Linux" "dev" "" defaultArgs ["engine"]).1 := by
  constructor
  · rfl
  · decide

/-- C6 (amended): with the command `engine` first and no (or an empty)
`--platform`, the run aborts with the missing-argument exception before
any *build* process is spawned: the only effects are the git spawn(s) of
branch resolution and the banner message, and no command spawns anything.
(Commands listed before `engine` would still run first; the abort happens
when the `engine` command is reached.) -/
theorem claim_C6_missing_platform (host gitAbbrevOut gitHashOut : String)
    (args : Args) (rest : List String) (h : pyTruthy args.platform = false) :
    mainRun host gitAbbrevOut gitHashOut args ("engine" :: rest) =
      ((get_branch gitAbbrevOut gitHashOut).1 ++
        [usingMessage (get_branch gitAbbrevOut gitHashOut).2
          (resolveConfig (some (get_branch gitAbbrevOut gitHashOut).2) args)],
       some (Abort.exception "No --platform specified.")) := by
  cases hp : args.platform with
  | none => simp [mainRun, runList, processCommand, mkCtx, hp]
  | some p =>
    have hpe : p = "" := by
      have := h
      rw [hp] at this
      simpa [pyTruthy] using this
    subst hpe
    simp [mainRun, runList, processCommand, mkCtx, hp]

/-- Witness for C6 (amended): no flags at all, branch `dev`. -/
theorem claim_C6_missing_platform_witness :
    pyTruthy defaultArgs.platform = false
  ∧ mainRun "Linux" "dev" "" defaultArgs ("engine" :: []) =
      ((get_branch "dev" "").1 ++
        [usingMessage (get_branch "dev" "").2
          (resolveConfig (some (get_branch "dev" "").2) defaultArgs)],
       some (Abort.exception "No --platform specified.")) :=
  ⟨rfl, claim_C6_missing_platform "Linux" "dev" "" defaultArgs [] rfl⟩

/-- C7: a command name outside the known set is only reported: its
iteration prints `Unknown command ...`, produces no abort, and the rest of
the command list is processed exactly as it would have been on its own —
in particular the unknown name alone never turns the exit into a failure. -/
theorem claim_C7_unknown_command (ctx : Ctx) (c : String) (rest : List String)
    (h : ¬ c ∈ knownCommands) :
    processCommand ctx c = ([Effect.message ("Unknown command " ++ c)], none)
  ∧ runList ctx (c :: rest) =
      (Effect.message ("Unknown command " ++ c) :: (runList ctx rest).1,
       (runList ctx rest).2) := by
  simp [knownCommands, not_or] at h
  obtain ⟨h1, h2, h3, h4, h5, h6, h7, h8, h9, h10⟩ := h
  have hp : processCommand ctx c =
      ([Effect.message ("Unknown command " ++ c)], none) := by
    simp [processCommand, h1, h2, h3, h4, h5, h6, h7, h8, h9, h10]
  refine ⟨hp, ?_⟩
  simp [runList, hp]

/-- Witness for C7: the unknown name `frobnicate` followed by `smoke`. -/
theorem claim_C7_unknown_command_witness :
    (¬ "frobnicate" ∈ knownCommands)
  ∧ processCommand (mkCtx "Linux" (some "dev") defaultArgs) "frobnicate"
      = ([Effect.message ("Unknown command " ++ "frobnicate")], none)
  ∧ runList (mkCtx "Linux" (some "dev") defaultArgs) ("frobnicate" :: ["smoke"]) =
      (Effect.message ("Unknown command " ++ "frobnicate")
         :: (runList (mkCtx "Linux" (some "dev") defaultArgs) ["smoke"]).1,
       (runList (mkCtx "Linux" (some "dev") defaultArgs) ["smoke"]).2) :=
  ⟨by decide,
   claim_C7_unknown_command (mkCtx "Linux" (some "dev") defaultArgs)
     "frobnicate" ["smoke"] (by decide)⟩

/-- C10: when the `engine` command runs on branch `master` or `beta`, the
engine build is spawned with `with_valgrind = true` regardless of the
`--with-valgrind` flag; on every other branch the valgrind argument is
exactly the caller's flag. -/
theorem claim_C10_valgrind (host : String) (branch : Option String)
    (args : Args) (p : String) (hp : args.platform = some p) (hpe : p ≠ "") :
    ((branch = some "master" ∨ branch = some "beta") →
      processCommand (mkCtx host branch args) "engine" =
        ([Effect.spawn (build_engine p true args.with_asan
           args.with_vanilla_lua args.skip_tests true args.skip_docs
           args.skip_builtins args.archive
           (resolveConfig branch args).engine_channel)], none))
  ∧ (branch ≠ some "master" → branch ≠ some "beta" →
      processCommand (mkCtx host branch args) "engine" =
        ([Effect.spawn (build_engine p args.with_valgrind args.with_asan
           args.with_vanilla_lua args.skip_tests true args.skip_docs
           args.skip_builtins args.archive
           (resolveConfig branch args).engine_channel)], none)) := by
  constructor
  · rintro (rfl | rfl) <;> simp [processCommand, mkCtx, hp, hpe]
  · intro h1 h2
    have b1 : (branch == some "master") = false := beq_eq_false_iff_ne.mpr h1
    have b2 : (branch == some "beta") = false := beq_eq_false_iff_ne.mpr h2
    simp [processCommand, mkCtx, hp, hpe, b1, b2]

/-- Arguments for the C10 witness: a platform, `--with-valgrind` not
passed. -/
def engineArgs : Args :=
  ⟨some "x86_64-linux", false, false, false, false, false, false, false,
   none, none, none, none, none, none⟩

/-- Witness for C10: on `master` the spawned build has the valgrind flag
forced to true though the caller did not pass it; on `dev` it is the
caller's (false) flag. -/
theorem claim_C10_valgrind_witness :
    engineArgs.platform = some "x86_64-linux"
  ∧ engineArgs.with_valgrind = false
  ∧ processCommand (mkCtx "Linux" (some "master") engineArgs) "engine" =
      ([Effect.spawn (build_engine "x86_64-linux" true engineArgs.with_asan
         engineArgs.with_vanilla_lua engineArgs.skip_tests true
         engineArgs.skip_docs engineArgs.skip_builtins engineArgs.archive
         (resolveConfig (some "master") engineArgs).engine_channel)], none)
  ∧ processCommand (mkCtx "Linux" (some "dev") engineArgs) "engine" =
      ([Effect.spawn (build_engine "x86_64-linux" engineArgs.with_valgrind
         engineArgs.with_asan engineArgs.with_vanilla_lua engineArgs.skip_tests
         true engineArgs.skip_docs engineArgs.skip_builtins engineArgs.archive
         (resolveConfig (some "dev") engineArgs).engine_channel)], none) :=
  ⟨rfl, rfl,
   (claim_C10_valgrind "Linux" (some "master") engineArgs "x86_64-linux" rfl
     (by decide)).1 (Or.inl rfl),
   (claim_C10_valgrind "Linux" (some "dev") engineArgs "x86_64-linux" rfl
     (by decide)).2 (by decide) (by decide)⟩

/-- The barchive task-generator attributes consumed by
`waf_resource.py`.  `apply_barchive_before` installs the defaults for
attributes the wscript did not set: `source_root = None`,
`resource_name = None`, `use_compression = False`. -/
structure BArchiveAttrs where
  source_root : Option String
  resource_name : Option String
  use_compression : Bool
deriving DecidableEq

/-- The attribute record right after `apply_barchive_before` when the
wscript set none of the three attributes. -/
def barchiveDefaults : BArchiveAttrs := ⟨none, none, false⟩

/-- The extensions of the five files the archive task declares as outputs
(`waf_resource.py` line 48). -/
def archiveOutputExts : List String :=
  ["dmanifest", "arci", "arcd", "public", "manifest_hash"]

/-- The environment of the registered `resource_archive` task: the values
appended for `ARCHIVEBUILDER_ROOT`, `ARCHIVEBUILDER_OUTPUT` and
`ARCHIVEBUILDER_FLAGS`, plus the classpath and the declared output
files.  The task's command line is `${JAVA} -classpath ${CLASSPATH}
com.dynamo.bob.archive.ArchiveBuilder ${ARCHIVEBUILDER_ROOT}
${ARCHIVEBUILDER_OUTPUT} ${ARCHIVEBUILDER_FLAGS} ${SRC}`. -/
structure ArchiveTask where
  classpath : List String
  root : List String
  output : List String
  flags : List String
  outputs : List String
deriving DecidableEq

/-- `apply_barchive_after` (`waf_resource.py` lines 31-63): reports an
error when `source_root` or `resource_name` is unset, otherwise registers
the archive task.  The input/run-after wiring over sibling tasks carries
no values relevant here and is omitted; `os.path.abspath(os.path.join(
'build', bldpath, resource_name))` is modelled by prefixing the working
directory `cwd`. -/
def apply_barchive_after (self : BArchiveAttrs)
    (dynamo_home bldpath cwd : String) : Except String ArchiveTask :=
  match self.source_root with
  | none => Except.error "source_root is not specified!"
  | some root =>
    match self.resource_name with
    | none => Except.error "resource_name is not specified!"
    | some name =>
      Except.ok
        { classpath := [dynamo_home ++ "/share/java/bob-light.jar",
                        "default/src/java"]
          root := [root]
          output := [cwd ++ "/build/" ++ bldpath ++ "/" ++ name]
          flags := ["-m"] ++ (if self.use_compression then ["-c"] else [])
          outputs := archiveOutputExts.map (fun e => name ++ "." ++ e) }

/-- C8 (counterexample): a barchive task generator that sets its source
root and resource name but leaves `use_compression` at its
`apply_barchive_before` default (`False`) registers the archive builder
with flags `["-m"]` only — the compress flag `-c` is *not* always passed. -/
theorem claim_C8_counterexample :
    apply_barchive_after
        { barchiveDefaults with source_root := some "content", resource_name := some "game" }
        "dynamo" "default" "/work" =
      Except.ok
        ⟨["dynamo/share/java/bob-light.jar", "default/src/java"],
         ["content"], ["/work/build/default/game"], ["-m"],
         ["game.dmanifest", "game.arci", "game.arcd", "game.public",
          "game.manifest_hash"]⟩
  ∧ ¬ "-c" ∈ (["-m"] : List String) := by
  constructor
  · rfl
  · decide

/-- C8 (amended): every successfully registered archive-builder task
receives the include-manifest flag `-m`, a (nonempty) source root and a
(nonempty) output path, and receives the compress flag `-c` exactly when
the task generator enabled `use_compression`. -/
theorem claim_C8_archive_flags (self : BArchiveAttrs)
    (dynamo_home bldpath cwd : String) (t : ArchiveTask)
    (h : apply_barchive_after self dynamo_home bldpath cwd = Except.ok t) :
    "-m" ∈ t.flags
  ∧ t.root ≠ []
  ∧ t.output ≠ []
  ∧ ("-c" ∈ t.flags ↔ self.use_compression = true) := by
  cases hr : self.source_root with
  | none => simp [apply_barchive_after, hr] at h
  | some root =>
    cases hn : self.resource_name with
    | none => simp [apply_barchive_after, hr, hn] at h
    | some name =>
      simp [apply_barchive_after, hr, hn] at h
      subst h
      cases hc : self.use_compression <;> simp [hc]

/-- Witness for C8 (amended) with compression enabled. -/
theorem claim_C8_archive_flags_witness :
    apply_barchive_after ⟨some "content", some "game", true⟩ "dynamo" "default" "/work"
      = Except.ok
        ⟨["dynamo/share/java/bob-light.jar", "default/src/java"],
         ["content"], ["/work/build/default/game"], ["-m", "-c"],
         ["game.dmanifest", "game.arci", "game.arcd", "game.public",
          "game.manifest_hash"]⟩
  ∧ ("-m" ∈ (["-m", "-c"] : List String)
     ∧ (["content"] : List String) ≠ []
     ∧ (["/work/build/default/game"] : List String) ≠ []
     ∧ ("-c" ∈ (["-m", "-c"] : List String) ↔
        (⟨some "content", some "game", true⟩ : BArchiveAttrs).use_compression = true)) :=
  ⟨rfl,
   claim_C8_archive_flags ⟨some "content", some "game", true⟩ "dynamo"
     "default" "/work"
     ⟨["dynamo/share/java/bob-light.jar", "default/src/java"],
      ["content"], ["/work/build/default/game"], ["-m", "-c"],
      ["game.dmanifest", "game.arci", "game.arcd", "game.public",
       "game.manifest_hash"]⟩ rfl⟩
